import Mathlib

/-!
# Verification of the dirsrv-migrate replication wait / retry core

Shallow embedding of the replication-convergence and retry logic of the
repository, covering:

* `roles/dirsrv_repl/library/retry_utils.py` — `RetryConfig`,
  `CircuitBreaker`, `AdaptiveRetry`;
* `collections/.../plugins/modules/ds_repl_wait.py` — the status
  observer `_observations`, the backlog sampler `_monitor_sample`,
  and the polling loop of `run_module`.

Python floats are modelled as rationals (`ℚ`), Python ints as `Int`/`Nat`,
`None` as `Option.none`, strings as `String` with per-character
computations done on `List Char` (Python's `.lower()`, `.strip()`, `in`).
Wall-clock time (`time.time()` / `time.monotonic()`) is passed explicitly
as an argument.  Fallible paths (`try`/`except`, `raise`) are modelled
with `Option`/`Except`.
-/

set_option autoImplicit false

namespace DirsrvRepl

/-! ## retry_utils.py -/

/-- Embeds `RetryConfig.__init__` (retry_utils.py lines 13-24).
Defaults in the source: `max_retries=30, base_delay=2.0, max_delay=60.0,
backoff_multiplier=1.5, jitter=True, circuit_breaker_threshold=5`. -/
structure RetryConfig where
  max_retries : Nat
  base_delay : ℚ
  max_delay : ℚ
  backoff_multiplier : ℚ
  jitter : Bool
  circuit_breaker_threshold : Nat
  deriving Repr, DecidableEq

/-- The three circuit-breaker states (string constants in the source). -/
inductive CBState where
  | CLOSED
  | OPEN
  | HALF_OPEN
  deriving Repr, DecidableEq

/-- Embeds the mutable fields of `CircuitBreaker.__init__`
(retry_utils.py lines 30-35). -/
structure CircuitBreaker where
  threshold : Nat
  timeout : ℚ
  failure_count : Nat
  last_failure_time : ℚ
  state : CBState
  deriving Repr, DecidableEq

/-- Embeds the constructor call `CircuitBreaker(threshold, timeout)`:
zero failures, `last_failure_time = 0`, state `CLOSED`. -/
def CircuitBreaker.init (threshold : Nat) (timeout : ℚ) : CircuitBreaker :=
  { threshold := threshold, timeout := timeout, failure_count := 0,
    last_failure_time := 0, state := .CLOSED }

/-- Embeds `CircuitBreaker.can_execute` (retry_utils.py lines 37-49).
`now` (Python `time.time()`) is explicit; result is the returned boolean
paired with the updated breaker (OPEN may flip to HALF_OPEN). -/
def CircuitBreaker.can_execute (cb : CircuitBreaker) (now : ℚ) :
    Bool × CircuitBreaker :=
  match cb.state with
  | .CLOSED => (true, cb)
  | .OPEN =>
      if cb.timeout < now - cb.last_failure_time then
        (true, { cb with state := .HALF_OPEN })
      else
        (false, cb)
  | .HALF_OPEN => (true, cb)

/-- Embeds `CircuitBreaker.record_success` (retry_utils.py lines 51-54). -/
def CircuitBreaker.record_success (cb : CircuitBreaker) : CircuitBreaker :=
  { cb with failure_count := 0, state := .CLOSED }

/-- Embeds `CircuitBreaker.record_failure` (retry_utils.py lines 56-62):
increment the count, stamp the failure time, and open the breaker when the
count reaches the threshold. -/
def CircuitBreaker.record_failure (cb : CircuitBreaker) (now : ℚ) :
    CircuitBreaker :=
  let cb' := { cb with failure_count := cb.failure_count + 1,
                       last_failure_time := now }
  if cb'.threshold ≤ cb'.failure_count then { cb' with state := .OPEN }
  else cb'

/-- Embeds `AdaptiveRetry.calculate_delay` (retry_utils.py lines 74-90) as a
function of the instance state it reads (`retry_count`, `last_delay`) and of
the random draw `jitter_factor` (`random.uniform(0.5, 1.5)`), returning the
delay together with the new `self.last_delay` (which the source sets to the
post-jitter delay). -/
def calculate_delay (cfg : RetryConfig) (retry_count : Nat) (last_delay : ℚ)
    (jitter_factor : ℚ) : ℚ × ℚ :=
  let delay :=
    if retry_count = 0 then cfg.base_delay
    else min (last_delay * cfg.backoff_multiplier) cfg.max_delay
  let delay := if cfg.jitter then delay * jitter_factor else delay
  (delay, delay)

/-- The delay produced at the n-th consecutive call of `calculate_delay`
in the failure path of `execute_with_retry`, with every jitter draw equal to
`f`: `retry_count` is 0 at the first call and increments by one per retry,
`last_delay` starts at `config.base_delay` (`AdaptiveRetry.__init__`,
line 72).  Returns the delay paired with the updated `last_delay`. -/
def nthDelay (cfg : RetryConfig) (f : ℚ) : Nat → ℚ × ℚ
  | 0 => calculate_delay cfg 0 cfg.base_delay f
  | n + 1 => calculate_delay cfg (n + 1) (nthDelay cfg f n).2 f

/-- The attribute names `AdaptiveRetry.__init__` (retry_utils.py lines
68-72) sets on `self`; no other method ever assigns a new attribute. -/
def adaptiveRetryAttrs : List String :=
  ["config", "circuit_breaker", "retry_count", "last_delay"]

/-- Kinds of exception an `execute_with_retry` call can raise. -/
inductive PyError where
  /-- `AttributeError: 'AdaptiveRetry' object has no attribute name` -/
  | attributeError (name : String)
  /-- `raise Exception(msg)` with a formatted message -/
  | exceptionMsg (msg : String)
  deriving Repr, DecidableEq

/-- Embeds the circuit-breaker gate at the top of the attempt loop of
`AdaptiveRetry.execute_with_retry` (retry_utils.py lines 109-110):
when `can_execute` is false the source executes
`raise Exception(f"Circuit breaker is OPEN after {self.failure_count} failures")`.
Evaluating the f-string first looks up the attribute `failure_count` on
`self`; a name not set on the instance raises `AttributeError` instead.
`breakerFailures` is `self.circuit_breaker.failure_count`, the count the
message was presumably meant to show. -/
def executeGate (breakerAllows : Bool) (breakerFailures : Nat) :
    Except PyError Unit :=
  if breakerAllows then .ok ()
  else if adaptiveRetryAttrs.contains "failure_count" then
    .error (.exceptionMsg
      ("Circuit breaker is OPEN after " ++ toString breakerFailures ++ " failures"))
  else .error (.attributeError "failure_count")

/-- Fold `record_failure` over a list of failure timestamps: `n` consecutive
failures with no intervening success. -/
def applyFailures (cb : CircuitBreaker) (ts : List ℚ) : CircuitBreaker :=
  ts.foldl (fun c now => c.record_failure now) cb

/-- The invariant claimed for the breaker state machine: the breaker is
OPEN only once the failure count has reached the threshold. -/
def CBInv (cb : CircuitBreaker) : Prop :=
  cb.state = .OPEN → cb.threshold ≤ cb.failure_count

instance (cb : CircuitBreaker) : Decidable (CBInv cb) := by
  unfold CBInv; infer_instance

/-! ## ds_repl_wait.py: Python string primitives

Python string operations are modelled on `List Char`: `.lower()` as a
`Char.toLower` map (the source only meets ASCII attribute values),
`.strip()` as dropping whitespace on both ends, and the substring test
`needle in hay` as `containsSub`. -/

/-- Model of `s.lower()` for a Lean `String`. -/
def lowerChars (s : String) : List Char := s.toList.map Char.toLower

/-- Model of `.strip()` on a character list. -/
def stripChars (cs : List Char) : List Char :=
  ((cs.dropWhile Char.isWhitespace).reverse.dropWhile Char.isWhitespace).reverse

/-- Model of the Python substring test `needle in hay`. -/
def containsSub (needle : List Char) : List Char → Bool
  | [] => needle.isEmpty
  | c :: rest => List.isPrefixOf needle (c :: rest) || containsSub needle rest

/-- Numeric value of a digit run (most significant first). -/
def digitsVal (cs : List Char) : Nat :=
  cs.foldl (fun acc c => acc * 10 + (c.toNat - '0'.toNat)) 0

/-- Whether a character list starts with a digit. -/
def headIsDigit : List Char → Bool
  | [] => false
  | d :: _ => d.isDigit

/-- Embeds `_CODE_RE.search` for the pattern of one optional minus sign
followed by digits (ds_repl_wait.py line 119): the leftmost match of
`-?` followed by a maximal digit run, as a signed integer; `none` when the
string holds no digit. -/
def codeSearch : List Char → Option Int
  | [] => none
  | c :: rest =>
    if c.isDigit then
      some (Int.ofNat (digitsVal (c :: rest.takeWhile Char.isDigit)))
    else if c == '-' && headIsDigit rest then
      some (-(Int.ofNat (digitsVal (rest.takeWhile Char.isDigit))))
    else codeSearch rest

/-! ## ds_repl_wait.py: generalized-time parsing (`_gtz_to_epoch`) -/

/-- Gregorian leap year, as `datetime` uses. -/
def isLeap (y : Nat) : Bool := y % 4 == 0 && (y % 100 != 0 || y % 400 == 0)

/-- Days in a month, as validated by the `datetime` constructor. -/
def daysInMonth (y m : Nat) : Nat :=
  match m with
  | 1 => 31 | 2 => if isLeap y then 29 else 28 | 3 => 31 | 4 => 30
  | 5 => 31 | 6 => 30 | 7 => 31 | 8 => 31 | 9 => 30 | 10 => 31
  | 11 => 30 | 12 => 31 | _ => 0

/-- Validity check performed by `datetime(y, mo, d, h, mi, s)`; an invalid
component raises `ValueError`, which `_gtz_to_epoch` turns into `None`. -/
def datetimeValid (y mo d h mi s : Nat) : Bool :=
  1 ≤ y && y ≤ 9999 && 1 ≤ mo && mo ≤ 12 && 1 ≤ d && d ≤ daysInMonth y mo &&
    h ≤ 23 && mi ≤ 59 && s ≤ 59

/-- Days between 1970-01-01 and the given civil date (proleptic Gregorian),
the integer underlying `datetime.timestamp()` for a UTC datetime. -/
def daysFromCivil (y mo d : Nat) : Int :=
  let yi : Int := if mo ≤ 2 then (y : Int) - 1 else (y : Int)
  let era : Int := yi / 400
  let yoe : Int := yi - era * 400
  let mp : Int := if 2 < mo then (mo : Int) - 3 else (mo : Int) + 9
  let doy : Int := (153 * mp + 2) / 5 + (d : Int) - 1
  let doe : Int := yoe * 365 + yoe / 4 - yoe / 100 + doy
  era * 146097 + doe - 719468

/-- Matches the regex tail `(?:\.\d+)?Z$` after the 14 digits. -/
def gtzTail : List Char → Bool
  | ['Z'] => true
  | '.' :: rest =>
      !rest.dropLast.isEmpty && rest.dropLast.all Char.isDigit &&
        rest.getLast? == some 'Z'
  | _ => false

/-- Embeds `_gtz_to_epoch` (ds_repl_wait.py lines 122-133): a string of 14
digits (YYYYMMDDHHMMSS), an optional fraction, and a final Z is converted
to a Unix epoch through `datetime(..., tzinfo=utc).timestamp()`; any
non-match or invalid date yields `None`. -/
def gtzToEpoch (s : String) : Option Int :=
  let cs := s.toList
  let d14 := cs.take 14
  if d14.length = 14 && d14.all Char.isDigit && gtzTail (cs.drop 14) then
    let y := digitsVal (cs.take 4)
    let mo := digitsVal ((cs.drop 4).take 2)
    let d := digitsVal ((cs.drop 6).take 2)
    let h := digitsVal ((cs.drop 8).take 2)
    let mi := digitsVal ((cs.drop 10).take 2)
    let sec := digitsVal ((cs.drop 12).take 2)
    if datetimeValid y mo d h mi sec then
      some (daysFromCivil y mo d * 86400 + (h : Int) * 3600 + (mi : Int) * 60 + (sec : Int))
    else none
  else none

/-! ## ds_repl_wait.py: the status observer `_observations` -/

/-- An LDAP entry attribute map, as returned in `entry.get('attrs', {})`:
insertion-ordered pairs of attribute name and value list. -/
abbrev Attrs := List (String × List String)

/-- Embeds `_aget` (ds_repl_wait.py lines 146-153): case-insensitive
lookup of an attribute name, first match in iteration order. -/
def aget (a : Attrs) (name : String) : Option (List String) :=
  (a.find? (fun kv => lowerChars kv.1 == lowerChars name)).map Prod.snd

/-- Exact-key lookup, for `e.get('attrs', {}).get('cn')` in `run_module`. -/
def attrsGetExact (a : Attrs) (name : String) : Option (List String) :=
  (a.find? (fun kv => kv.1 == name)).map Prod.snd

/-- Embeds `_first` (ds_repl_wait.py lines 140-143): the head of a
non-empty value list, else `None`. -/
def firstVal (v : Option (List String)) : Option String := v.bind List.head?

/-- The truthy value set for `nsds5ReplicaEnabled` (line 191). -/
def enabledTruthy : List (List Char) :=
  ["on".toList, "true".toList, "yes".toList, "1".toList]

/-- The truthy value set for `nsds5ReplicaUpdateInProgress` (line 202). -/
def busyTruthy : List (List Char) :=
  ["true".toList, "yes".toList, "on".toList, "1".toList]

/-- One per-agreement snapshot, the dict built by `_observations`
(ds_repl_wait.py lines 207-219 and 221).  Fields absent from the
`missing` dict (`update_status`, `init_status`) are modelled as `none`,
matching what `o.get(...)` returns downstream.  `update_age` is `Option`
valued because the missing path stores `None`; the normal path always
stores an integer (see `parseObs`). -/
structure Obs where
  dn : String
  enabled : Option Bool
  busy : Option Bool
  update_start_epoch : Option Int
  update_code : Option Int
  update_age : Option Int
  init_code : Option Int
  update_status : Option String
  init_status : Option String
  replica_enabled : Option Bool
  status : String
  deriving Repr, DecidableEq

/-- The snapshot appended when the per-agreement read raises
(ds_repl_wait.py line 221): every agreement-level field `None`, the
replica-level flag carried over, and the `missing` status marker. -/
def missingObs (dn : String) (rEnabled : Option Bool) : Obs :=
  { dn := dn, enabled := none, busy := none, update_start_epoch := none,
    update_code := none, update_age := none, init_code := none,
    update_status := none, init_status := none,
    replica_enabled := rEnabled, status := "missing" }

/-- Embeds the successful-read branch of the `_observations` loop body
(ds_repl_wait.py lines 181-219), building one snapshot from the fetched
entry.  `now` is `int(time.time())` taken at the top of `_observations`. -/
def parseObs (now : Int) (rEnabled : Option Bool) (dn : String) (e : Attrs) : Obs :=
  let valsEn := aget e "nsds5ReplicaEnabled"
  let agmtEnabled : Option Bool :=
    match valsEn with
    | none => none
    | some vals => some (enabledTruthy.contains (lowerChars (vals.head?.getD "")))
  let initStatus := firstVal (aget e "nsds5replicaLastInitStatus")
  let updStatus := firstVal (aget e "nsds5replicaLastUpdateStatus")
  let initCode := initStatus.bind (fun s => codeSearch s.toList)
  let updCode := updStatus.bind (fun s => codeSearch s.toList)
  let updStart := firstVal (aget e "nsds5replicaLastUpdateStart")
  let updEnd := firstVal (aget e "nsds5replicaLastUpdateEnd")
  let busyRaw := firstVal (aget e "nsds5ReplicaUpdateInProgress")
  let busy : Option Bool :=
    busyRaw.map (fun s => busyTruthy.contains ((stripChars s.toList).map Char.toLower))
  let updEpoch : Option Int :=
    match updEnd with
    | some s => if s ≠ "" then gtzToEpoch s else none
    | none => none
  let updStartEpoch : Option Int :=
    match updStart with
    | some s => if s ≠ "" then gtzToEpoch s else none
    | none => none
  let updAge : Option Int := updEpoch.map (fun t => now - t)
  { dn := dn, enabled := agmtEnabled, busy := busy,
    update_start_epoch := updStartEpoch, update_code := updCode,
    update_age := some (updAge.getD (-1)),
    init_code := initCode, update_status := updStatus,
    init_status := initStatus, replica_enabled := rEnabled,
    status := "unknown" }

/-- One iteration of the `_observations` loop: a failed read (`none`)
yields the missing snapshot, a successful read is parsed. -/
def observeOne (now : Int) (rEnabled : Option Bool) : String × Option Attrs → Obs
  | (dn, none) => missingObs dn rEnabled
  | (dn, some e) => parseObs now rEnabled dn e

/-- Embeds `_observations` (ds_repl_wait.py lines 167-222) over the
outcome of each per-DN directory read: one snapshot is appended per
requested DN, in request order; the function never raises (every read is
wrapped in `try`/`except`).  `rEnabled` is the replica-level flag, itself
`none` when the replica read raised. -/
def observations (now : Int) (rEnabled : Option Bool)
    (fetches : List (String × Option Attrs)) : List Obs :=
  fetches.map (observeOne now rEnabled)

/-- Embeds `_cn_from_dn` (ds_repl_wait.py lines 156-164): the value of a
leading `cn=` RDN, else the DN unchanged (also on the `ValueError` path
when the first RDN has no equals sign). -/
def cnFromDn (dn : String) : String :=
  let rdn := dn.toList.takeWhile (fun c => c ≠ ',')
  if rdn.contains '=' then
    let k := rdn.takeWhile (fun c => c ≠ '=')
    let v := (rdn.dropWhile (fun c => c ≠ '=')).drop 1
    if (stripChars k).map Char.toLower = ['c', 'n'] then String.mk v else dn
  else dn

/-- Embeds the target-DN resolution of `run_module` (ds_repl_wait.py lines
265-282).  `agreements` is the module parameter (a non-empty list is
truthy); with `all` set, `searchRes` is the one-level search under the
replica (`none` when the search raised, in which case `ents = []`); each
entry contributes `cn=value,replicaDn` when its `cn` attribute has a
truthy first value.  With neither parameter the module fails. -/
def resolveTargets (agreements : Option (List String)) (allFlag : Bool)
    (searchRes : Option (List Attrs)) (replicaDn : String) :
    Except String (List String) :=
  match agreements with
  | some (a :: rest) => .ok (a :: rest)
  | _ =>
    if allFlag then
      let ents := searchRes.getD []
      .ok (ents.filterMap (fun e =>
        match attrsGetExact e "cn" with
        | some (cn :: _) =>
            if cn ≠ "" then some ("cn=" ++ cn ++ "," ++ replicaDn) else none
        | _ => none))
    else .error "Specify agreements list or set all true"

/-! ## ds_repl_wait.py: per-cycle aggregates (run_module lines 354-413) -/

/-- The trend record stored in `prev_by_dn[dn]` (line 413). -/
structure PrevEnt where
  update_start_epoch : Option Int
  end_epoch : Option Int
  age : Option Int
  deriving Repr, DecidableEq

/-- The `prev_by_dn` dict, modelled as an association list. -/
abbrev PrevMap := List (String × PrevEnt)

/-- Dict lookup `prev_by_dn.get(dn)`. -/
def prevLookup (m : PrevMap) (dn : String) : Option PrevEnt :=
  (m.find? (fun kv => kv.1 == dn)).map Prod.snd

/-- Dict assignment `prev_by_dn[dn] = ...`. -/
def prevInsert (m : PrevMap) (dn : String) (p : PrevEnt) : PrevMap :=
  (m.filter (fun kv => kv.1 != dn)) ++ [(dn, p)]

/-- Embeds line 387 of ds_repl_wait.py: the `is_success` flag, true when
the numeric update code is 0 or the lower-cased status text holds one of
the success keywords.  The source computes this variable but never reads
it afterwards. -/
def isSuccessSignal (uc : Option Int) (updStatus : Option String) : Bool :=
  let us := lowerChars (updStatus.getD "")
  uc == some 0 || containsSub "succeed".toList us ||
    containsSub "acquired successfully".toList us ||
    containsSub "incremental update succeeded".toList us

/-- Embeds line 388: `recent_ok`, requiring the numeric update code to be
exactly 0 and a known age within `[0, stale]`. -/
def recentOk (uc : Option Int) (age : Option Int) (stale : Int) : Bool :=
  uc == some 0 &&
    (match age with
     | some a => decide (0 ≤ a) && decide (a ≤ stale)
     | none => false)

/-- Embeds lines 372-375: the end epoch reconstructed from a known
non-negative age. -/
def endEpochOf (nowEpoch : Int) (age : Option Int) : Option Int :=
  match age with
  | some a => if 0 ≤ a then some (nowEpoch - a) else none
  | none => none

/-- Embeds lines 376-383: forward progress against the previous cycle
(update start advanced, end advanced, or age decreased). -/
def movingB (prev : Option PrevEnt) (startE endE age : Option Int) : Bool :=
  match prev with
  | none => false
  | some pv =>
    (match startE, pv.update_start_epoch with
     | some s, some ps => decide (ps < s)
     | _, _ => false) ||
    (match endE, pv.end_epoch with
     | some e1, some pe => decide (pe < e1)
     | _, _ => false) ||
    (match age, pv.age with
     | some a, some pa => decide (a < pa)
     | _, _ => false)

/-- The per-agreement contribution to `working_met` (line 391):
busy, or moving, or recently successful. -/
def obsWorkingContrib (stale nowEpoch : Int) (prev : Option PrevEnt) (o : Obs) : Bool :=
  let endE := endEpochOf nowEpoch o.update_age
  (o.busy == some true) || movingB prev o.update_start_epoch endE o.update_age ||
    recentOk o.update_code o.update_age stale

/-- Embeds line 395: last init code unknown or 0, or the check disabled. -/
def initOk (requireInit : Bool) (ic : Option Int) : Bool :=
  (ic == none || ic == some 0) || !requireInit

/-- Embeds lines 397-399: a known backlog for the agreement name must be
exactly 0; an unknown backlog passes. -/
def backlogOk (backlog : List (String × Int)) (name : String) : Bool :=
  match (backlog.find? (fun kv => kv.1 == name)).map Prod.snd with
  | none => true
  | some b => b == 0

/-- Embeds line 400: the per-agreement finished test (`busy` here is the
rebound local boolean of line 389, so `busy is False or busy is None`
amounts to its negation). -/
def obsFinished (requireInit : Bool) (stale : Int) (backlog : List (String × Int))
    (o : Obs) : Bool :=
  (!(o.busy == some true)) && initOk requireInit o.init_code &&
    recentOk o.update_code o.update_age stale &&
    backlogOk backlog (cnFromDn o.dn)

/-- Embeds lines 404-410: the strong-signal unhealthy reasons appended for
one agreement, in source order. -/
def obsUnhealthy (requireInit : Bool) (stale : Int) (o : Obs) :
    List (String × String) :=
  (if o.replica_enabled == some false then [(o.dn, "replica disabled")] else []) ++
  (if requireInit && !(o.init_code == none || o.init_code == some 0) then
     [(o.dn, "init_code!=0")] else []) ++
  (if !(o.update_code == none || o.update_code == some 0) &&
      (match o.update_age with
       | none => true
       | some a => decide (a < 0) || decide (stale < a)) then
     [(o.dn, "update_code!=0")] else [])

/-- The aggregate state threaded through the per-agreement loop of one
poll cycle. -/
structure CycleAgg where
  configured_met : Bool
  working_met : Bool
  finished_met : Bool
  unhealthy : List (String × String)
  prev : PrevMap
  deriving Repr, DecidableEq

/-- One iteration of the per-agreement loop (lines 363-413). -/
def cycleStepObs (requireInit : Bool) (stale nowEpoch : Int)
    (backlog : List (String × Int)) (acc : CycleAgg) (o : Obs) : CycleAgg :=
  let prevO := prevLookup acc.prev o.dn
  let endE := endEpochOf nowEpoch o.update_age
  { configured_met := acc.configured_met && (o.enabled == some true),
    working_met := acc.working_met || obsWorkingContrib stale nowEpoch prevO o,
    finished_met := acc.finished_met && obsFinished requireInit stale backlog o,
    unhealthy := acc.unhealthy ++ obsUnhealthy requireInit stale o,
    prev := prevInsert acc.prev o.dn ⟨o.update_start_epoch, endE, o.update_age⟩ }

/-- Embeds the whole per-cycle aggregate computation (lines 357-413):
`configured_met` and `finished_met` start true only when the observation
list is non-empty (lines 359-361), `working_met` starts false. -/
def cycleAggregates (requireInit : Bool) (stale nowEpoch : Int)
    (backlog : List (String × Int)) (prev : PrevMap) (obs : List Obs) : CycleAgg :=
  obs.foldl (cycleStepObs requireInit stale nowEpoch backlog)
    { configured_met := !obs.isEmpty, working_met := false,
      finished_met := !obs.isEmpty, unhealthy := [], prev := prev }

/-! ## ds_repl_wait.py: success decision and streak (lines 425-463) -/

/-- The resolved `require` sub-options (Ansible defaults:
configured true, working true, finished false). -/
structure Require where
  configured : Bool
  working : Bool
  finished : Bool
  deriving Repr, DecidableEq

/-- Embeds the phase-mode success test of line 446: every requested phase
predicate holds. -/
def phasePass (req : Require) (cm wm fm : Bool) : Bool :=
  (!req.configured || cm) && (!req.working || wm) && (!req.finished || fm)

/-- Embeds the legacy-mode success test of line 456: no unhealthy entry. -/
def legacyPass (unhealthy : List (String × String)) : Bool := unhealthy.isEmpty

/-- Embeds the `ok_streak` update of lines 446-453 and 456-463: a passing
cycle increments the streak, a failing cycle resets it to zero. -/
def streakStep (streak : Nat) (pass : Bool) : Nat :=
  if pass then streak + 1 else 0

/-- The value of `ok_streak` after a sequence of cycle outcomes, starting
from 0 (line 301). -/
def okStreakAfter (passes : List Bool) : Nat := passes.foldl streakStep 0

/-- The module exits with success at the end of a cycle exactly when the
incremented streak has reached `steady_ok_polls` (lines 450 and 460). -/
def declaresSuccess (k : Nat) (passes : List Bool) : Bool :=
  decide (k ≤ okStreakAfter passes)

/-! ## ds_repl_wait.py: backlog sampler `_monitor_sample` (lines 309-346) -/

/-- Embeds `_monitor_sample` over the outcome of each candidate-URL
attempt: `none` when the `dsconf` invocation fails in any way (exception,
timeout, non-zero exit, empty or malformed output — all caught, the loop
continues), `some out` when it exits 0 and the JSON walk produced the
mapping `out`.  The nonlocal `backlog_by_name` (`prev`) is replaced only
on the first success; when every attempt fails it is left unchanged.
The `monitor_enabled=False` early return corresponds to an empty attempt
list.  The function never raises. -/
def monitorSample (prev : List (String × Int)) :
    List (Option (List (String × Int))) → List (String × Int)
  | [] => prev
  | none :: rest => monitorSample prev rest
  | some out :: _ => out

/-! ## Helper lemmas -/

theorem record_failure_eq (cb : CircuitBreaker) (now : ℚ) :
    cb.record_failure now =
      if cb.threshold ≤ cb.failure_count + 1 then
        { cb with failure_count := cb.failure_count + 1,
                  last_failure_time := now, state := .OPEN }
      else { cb with failure_count := cb.failure_count + 1,
                     last_failure_time := now } := by
  simp only [CircuitBreaker.record_failure]

theorem applyFailures_cons (cb : CircuitBreaker) (t : ℚ) (ts : List ℚ) :
    applyFailures cb (t :: ts) = applyFailures (cb.record_failure t) ts := rfl

theorem applyFailures_count (ts : List ℚ) (cb : CircuitBreaker) :
    (applyFailures cb ts).failure_count = cb.failure_count + ts.length ∧
    (applyFailures cb ts).threshold = cb.threshold := by
  induction ts generalizing cb with
  | nil => simp [applyFailures]
  | cons t rest ih =>
    rw [applyFailures_cons, record_failure_eq]
    rcases ih (if cb.threshold ≤ cb.failure_count + 1 then
        { cb with failure_count := cb.failure_count + 1,
                  last_failure_time := t, state := .OPEN }
      else { cb with failure_count := cb.failure_count + 1,
                     last_failure_time := t }) with ⟨h1, h2⟩
    constructor
    · rw [h1]; split <;> simp <;> omega
    · rw [h2]; split <;> simp

theorem applyFailures_state_open (ts : List ℚ) (cb : CircuitBreaker)
    (hne : ts ≠ []) (hth : cb.threshold ≤ cb.failure_count + ts.length) :
    (applyFailures cb ts).state = .OPEN := by
  induction ts generalizing cb with
  | nil => exact absurd rfl hne
  | cons t rest ih =>
    rw [applyFailures_cons]
    rcases List.eq_nil_or_concat rest with h | _
    · subst h
      simp only [applyFailures, List.foldl]
      rw [record_failure_eq]
      have : cb.threshold ≤ cb.failure_count + 1 := by
        simpa using hth
      simp [this]
    · rcases rest with _ | ⟨r, rs⟩
      · simp at hth
        simp only [applyFailures, List.foldl]
        rw [record_failure_eq]
        simp [hth]
      · apply ih
        · simp
        · rw [record_failure_eq]
          split <;> simp <;> simp at hth <;> omega

theorem applyFailures_state_closed (ts : List ℚ) (cb : CircuitBreaker)
    (hc : cb.state = .CLOSED) (hth : cb.failure_count + ts.length < cb.threshold) :
    (applyFailures cb ts).state = .CLOSED := by
  induction ts generalizing cb with
  | nil => simpa [applyFailures] using hc
  | cons t rest ih =>
    rw [applyFailures_cons]
    apply ih
    · rw [record_failure_eq]
      have : ¬ cb.threshold ≤ cb.failure_count + 1 := by
        simp at hth; omega
      simp [this, hc]
    · rw [record_failure_eq]
      have : ¬ cb.threshold ≤ cb.failure_count + 1 := by
        simp at hth; omega
      simp [this]
      simp at hth
      omega

theorem okStreakAfter_append (xs : List Bool) (b : Bool) :
    okStreakAfter (xs ++ [b]) = streakStep (okStreakAfter xs) b := by
  simp [okStreakAfter, List.foldl_append]

theorem okStreakAfter_spec (ps : List Bool) :
    okStreakAfter ps ≤ ps.length ∧
    ps.drop (ps.length - okStreakAfter ps) = List.replicate (okStreakAfter ps) true := by
  induction ps using List.reverseRecOn with
  | nil => simp [okStreakAfter]
  | append_singleton xs b ih =>
    rcases ih with ⟨ih1, ih2⟩
    rw [okStreakAfter_append]
    cases b with
    | false => simp [streakStep]
    | true =>
      simp only [streakStep, if_pos]
      refine ⟨by simp; omega, ?_⟩
      have hlen : (xs ++ [true]).length = xs.length + 1 := by simp
      rw [hlen]
      have h2 : xs.length + 1 - (okStreakAfter xs + 1) = xs.length - okStreakAfter xs := by
        omega
      rw [h2, List.drop_append_of_le_length (by omega), ih2,
        List.replicate_succ']

theorem streak_tail (ps : List Bool) (k : Nat) (hk : k ≤ okStreakAfter ps) :
    k ≤ ps.length ∧ ps.drop (ps.length - k) = List.replicate k true := by
  obtain ⟨h1, h2⟩ := okStreakAfter_spec ps
  refine ⟨le_trans hk h1, ?_⟩
  have hsplit : ps.length - k = (ps.length - okStreakAfter ps) + (okStreakAfter ps - k) := by
    omega
  rw [hsplit, ← List.drop_drop, h2, List.drop_replicate]
  congr 1
  omega

theorem foldl_streak_replicate (k s : Nat) :
    (List.replicate k true).foldl streakStep s = s + k := by
  induction k generalizing s with
  | zero => simp
  | succ n ih =>
    rw [List.replicate_succ, List.foldl_cons]
    simp only [streakStep, if_pos]
    rw [ih]
    omega

/-! ## Claim theorems -/

/-- The retry configuration of the spec test scenario for C2:
`base_delay = 2, multiplier = 1.5, max_delay = 10`, jitter on. -/
def cfgC2 : RetryConfig :=
  { max_retries := 30, base_delay := 2, max_delay := 10,
    backoff_multiplier := 3/2, jitter := true, circuit_breaker_threshold := 5 }

/-- C2 counterexample: with `base_delay = 2, multiplier = 1.5,
max_delay = 10` and every jitter draw at its upper value 1.5, the third
consecutive delay computed by `calculate_delay` is 15, which exceeds
`max_delay = 10` — the jitter multiplication happens after the
`min(..., max_delay)` clamp, so the returned delay is not capped at
`max_delay`. -/
theorem C2_jitter_exceeds_max_delay :
    (nthDelay cfgC2 (3/2) 2).1 = 15 ∧ ¬ (nthDelay cfgC2 (3/2) 2).1 ≤ cfgC2.max_delay := by
  constructor
  · norm_num [nthDelay, calculate_delay, cfgC2]
  · norm_num [nthDelay, calculate_delay, cfgC2]

/-- C2 amended: after the first attempt the pre-jitter delay is clamped to
`max_delay`, so with a jitter factor in `[0.5, 1.5]` the returned delay is
at most `1.5 * max_delay`; the first attempt returns `base_delay` times
the jitter factor, hence at most `1.5 * base_delay`; with jitter disabled
the delay after the first attempt never exceeds `max_delay`. -/
theorem C2_delay_cap (cfg : RetryConfig) (rc : Nat) (last f : ℚ)
    (hf0 : 1/2 ≤ f) (hf1 : f ≤ 3/2) (hmax : 0 ≤ cfg.max_delay)
    (hbase : 0 ≤ cfg.base_delay) :
    (1 ≤ rc → (calculate_delay cfg rc last f).1 ≤ 3/2 * cfg.max_delay) ∧
    (calculate_delay cfg 0 last f).1 ≤ 3/2 * cfg.base_delay ∧
    (cfg.jitter = false → 1 ≤ rc →
      (calculate_delay cfg rc last f).1 ≤ cfg.max_delay) := by
  have hf : (0:ℚ) ≤ f := by linarith
  refine ⟨?_, ?_, ?_⟩
  · intro hrc
    have hrc0 : rc ≠ 0 := by omega
    simp only [calculate_delay, hrc0, if_false]
    split
    · calc min (last * cfg.backoff_multiplier) cfg.max_delay * f
          ≤ cfg.max_delay * f :=
            mul_le_mul_of_nonneg_right (min_le_right _ _) hf
        _ ≤ cfg.max_delay * (3/2) := mul_le_mul_of_nonneg_left hf1 hmax
        _ = 3/2 * cfg.max_delay := by ring
    · calc min (last * cfg.backoff_multiplier) cfg.max_delay
          ≤ cfg.max_delay := min_le_right _ _
        _ ≤ 3/2 * cfg.max_delay := by linarith
  · simp only [calculate_delay, if_pos]
    split
    · calc cfg.base_delay * f ≤ cfg.base_delay * (3/2) :=
          mul_le_mul_of_nonneg_left hf1 hbase
        _ = 3/2 * cfg.base_delay := by ring
    · linarith
  · intro hj hrc
    have hrc0 : rc ≠ 0 := by omega
    simp only [calculate_delay, hrc0, if_false, hj]
    exact min_le_right _ _

/-- C2 amended witness: the cap holds at the concrete scenario of the
counterexample, where the delay is 15 = 1.5 times `max_delay`. -/
theorem C2_delay_cap_witness :
    (calculate_delay cfgC2 2 10 (3/2)).1 ≤ 3/2 * cfgC2.max_delay :=
  (C2_delay_cap cfgC2 2 10 (3/2) (by norm_num) (by norm_num)
    (by norm_num [cfgC2]) (by norm_num [cfgC2])).1 (by norm_num)

/-- C3: when the circuit breaker rejects execution at the top of an
attempt, `execute_with_retry` (retry_utils.py line 110) evaluates
`self.failure_count` in the message f-string; `AdaptiveRetry.__init__`
never sets that attribute (the count lives on `self.circuit_breaker`), so
the lookup raises `AttributeError` and the intended distinct
circuit-breaker-open failure is never produced. -/
theorem C3_breaker_open_raises_attribute_error :
    executeGate false 5 = .error (.attributeError "failure_count") ∧
    (∀ msg : String, executeGate false 5 ≠ .error (.exceptionMsg msg)) := by
  refine ⟨rfl, ?_⟩
  intro msg h
  rw [show executeGate false 5 = .error (.attributeError "failure_count") from rfl] at h
  simp at h

/-- C8: from the initial CLOSED state, threshold-many consecutive
`record_failure` calls (no intervening success) leave the breaker OPEN and
fewer leave it CLOSED; while OPEN, `can_execute` rejects exactly when
`now - last_failure_time ≤ timeout` and otherwise permits, moving the
state to HALF_OPEN. -/
theorem C8_threshold_and_cooldown (t : Nat) (c : ℚ) (ts : List ℚ) (ht : 1 ≤ t) :
    ((ts.length = t → (applyFailures (CircuitBreaker.init t c) ts).state = .OPEN) ∧
     (ts.length < t → (applyFailures (CircuitBreaker.init t c) ts).state = .CLOSED)) ∧
    (∀ (cb : CircuitBreaker) (now : ℚ), cb.state = .OPEN →
      (now - cb.last_failure_time ≤ cb.timeout →
        cb.can_execute now = (false, cb)) ∧
      (cb.timeout < now - cb.last_failure_time →
        cb.can_execute now = (true, { cb with state := .HALF_OPEN }))) := by
  refine ⟨⟨?_, ?_⟩, ?_⟩
  · intro hlen
    apply applyFailures_state_open
    · intro hnil
      rw [hnil] at hlen
      simp at hlen
      omega
    · simp [CircuitBreaker.init, hlen]
  · intro hlen
    apply applyFailures_state_closed
    · rfl
    · simpa [CircuitBreaker.init] using hlen
  · intro cb now hopen
    constructor
    · intro hle
      simp only [CircuitBreaker.can_execute, hopen]
      rw [if_neg (by linarith)]
    · intro hgt
      simp only [CircuitBreaker.can_execute, hopen]
      rw [if_pos hgt]

/-- C8 witness: the spec scenario with `threshold = 5, cooldown = 60`: the
fifth consecutive failure opens the breaker; with the last failure at time
50, a call at 109 (cooldown minus one) is rejected and a call at 111
(cooldown plus one) is permitted into HALF_OPEN. -/
theorem C8_threshold_and_cooldown_witness :
    (applyFailures (CircuitBreaker.init 5 60) [10, 20, 30, 40, 50]).state = .OPEN ∧
    (applyFailures (CircuitBreaker.init 5 60) [10, 20, 30, 40]).state = .CLOSED ∧
    CircuitBreaker.can_execute ⟨5, 60, 5, 50, .OPEN⟩ 109 =
      (false, ⟨5, 60, 5, 50, .OPEN⟩) ∧
    CircuitBreaker.can_execute ⟨5, 60, 5, 50, .OPEN⟩ 111 =
      (true, ⟨5, 60, 5, 50, .HALF_OPEN⟩) := by
  have h := C8_threshold_and_cooldown 5 60 [10, 20, 30, 40, 50] (by decide)
  have h4 := C8_threshold_and_cooldown 5 60 [10, 20, 30, 40] (by decide)
  refine ⟨h.1.1 (by decide), h4.1.2 (by decide), ?_, ?_⟩
  · exact (h.2 ⟨5, 60, 5, 50, .OPEN⟩ 109 rfl).1 (by norm_num)
  · exact (h.2 ⟨5, 60, 5, 50, .OPEN⟩ 111 rfl).2 (by norm_num)

/-- C10: the breaker invariant that OPEN implies the failure count has
reached the threshold holds initially and is preserved by `can_execute`,
`record_success` and `record_failure`, hence by any interleaving. -/
theorem C10_open_requires_threshold (t : Nat) (c : ℚ) :
    CBInv (CircuitBreaker.init t c) ∧
    (∀ (cb : CircuitBreaker) (now : ℚ), CBInv cb →
      CBInv (cb.can_execute now).2 ∧ CBInv cb.record_success ∧
        CBInv (cb.record_failure now)) := by
  constructor
  · intro h
    simp [CircuitBreaker.init] at h
  · intro cb now hinv
    refine ⟨?_, ?_, ?_⟩
    · simp only [CircuitBreaker.can_execute]
      split
      · exact hinv
      · split
        · intro h; simp at h
        · exact hinv
      · exact hinv
    · intro h
      simp [CircuitBreaker.record_success] at h
    · rw [record_failure_eq]
      split
      · intro _
        simpa using by omega
      · intro h
        simp only at h
        have := hinv h
        simp
        omega

/-- C10 witness: the invariant, as preserved by `record_failure`, at a
concrete OPEN breaker that satisfies it. -/
theorem C10_open_requires_threshold_witness :
    CBInv ((⟨5, 60, 5, 0, .OPEN⟩ : CircuitBreaker).record_failure 7) :=
  ((C10_open_requires_threshold 5 60).2 ⟨5, 60, 5, 0, .OPEN⟩ 7 (by decide)).2.2

/-- C1: with `steady_ok_polls = k ≥ 1`, success can be declared at the end
of a cycle prefix only when its last `k` cycles all passed (every
requested phase predicate held, resp. no agreement unhealthy); any cycle
whose outcome fails resets the streak to zero, so no success is declared
at a failing cycle — in particular a passing cycle followed by a failing
cycle leaves the streak at zero.  A cycle with an unmet requested phase
predicate, or a non-empty unhealthy list, is a failing cycle. -/
theorem C1_steady_ok_debounce (k : Nat) (hk : 1 ≤ k) :
    (∀ passes : List Bool, k ≤ okStreakAfter passes →
        k ≤ passes.length ∧
          passes.drop (passes.length - k) = List.replicate k true) ∧
    (∀ passes : List Bool, okStreakAfter (passes ++ [false]) = 0 ∧
        declaresSuccess k (passes ++ [false]) = false) ∧
    (∀ (streak : Nat) (req : Require) (cm wm fm : Bool),
        (req.configured = true ∧ cm = false) ∨ (req.working = true ∧ wm = false) ∨
          (req.finished = true ∧ fm = false) →
        streakStep streak (phasePass req cm wm fm) = 0) ∧
    (∀ (streak : Nat) (u : List (String × String)), u ≠ [] →
        streakStep streak (legacyPass u) = 0) := by
  refine ⟨fun passes h => streak_tail passes k h, ?_, ?_, ?_⟩
  · intro passes
    have h0 : okStreakAfter (passes ++ [false]) = 0 := by
      rw [okStreakAfter_append]
      simp [streakStep]
    exact ⟨h0, by simp [declaresSuccess, h0]; omega⟩
  · intro streak req cm wm fm h
    have hpass : phasePass req cm wm fm = false := by
      rcases h with ⟨h1, h2⟩ | ⟨h1, h2⟩ | ⟨h1, h2⟩ <;>
        simp [phasePass, h1, h2]
    simp [streakStep, hpass]
  · intro streak u hu
    have hpass : legacyPass u = false := by
      simpa [legacyPass] using hu
    simp [streakStep, hpass]

/-- C1 witness: with `steady_ok_polls = 2`, success after the prefix
`[false, true, true]` means its last two cycles passed; a pass followed by
a fail has streak zero and no success; an unmet requested `configured`
predicate resets a streak of 7; a non-empty unhealthy list resets it in
legacy mode. -/
theorem C1_steady_ok_debounce_witness :
    (2 ≤ okStreakAfter [false, true, true] ∧
      [false, true, true].drop 1 = List.replicate 2 true) ∧
    okStreakAfter [true, false] = 0 ∧
    declaresSuccess 2 [true, false] = false ∧
    streakStep 7 (phasePass ⟨true, true, false⟩ false true true) = 0 ∧
    streakStep 7 (legacyPass [("cn=a,x", "update_code!=0")]) = 0 := by
  have h := C1_steady_ok_debounce 2 (by decide)
  refine ⟨⟨by decide, (h.1 [false, true, true] (by decide)).2⟩,
    (h.2.1 [true]).1, (h.2.1 [true]).2,
    h.2.2.1 7 ⟨true, true, false⟩ false true true (Or.inl ⟨rfl, rfl⟩),
    h.2.2.2 7 [("cn=a,x", "update_code!=0")] (by simp)⟩

/-- C4 counterexample: with `all = true` and no agreement under the
replica, the resolved target list is empty yet the module keeps polling:
an empty observation batch yields an empty unhealthy list, so in legacy
mode (no `require` given) every cycle passes vacuously and, with the
default `steady_ok_polls = 2`, success is declared at cycle 2 — not an
immediate terminal failure. -/
theorem C4_empty_targets_success :
    resolveTargets none true (some [])
      "cn=replica,cn=suffix,cn=mapping tree,cn=config" = .ok [] ∧
    observations 1000 (some true) [] = [] ∧
    (cycleAggregates true 300 1000 [] [] []).unhealthy = [] ∧
    legacyPass (cycleAggregates true 300 1000 [] [] []).unhealthy = true ∧
    declaresSuccess 2 [true, true] = true := by
  exact ⟨rfl, rfl, rfl, rfl, rfl⟩

/-- C4 amended: an empty resolved target set is not rejected: each cycle
over the empty batch has an empty unhealthy list and all three phase
aggregates false, so in legacy mode the module declares success after
`steady_ok_polls` vacuously passing cycles, while in phase mode a
requested phase can only fail at its deadline (`configured_met` stays
false), not immediately. -/
theorem C4_empty_targets_behavior (ri : Bool) (stale now : Int)
    (bk : List (String × Int)) (pv : PrevMap) (k : Nat) :
    (cycleAggregates ri stale now bk pv []).unhealthy = [] ∧
    (cycleAggregates ri stale now bk pv []).configured_met = false ∧
    (cycleAggregates ri stale now bk pv []).working_met = false ∧
    (cycleAggregates ri stale now bk pv []).finished_met = false ∧
    legacyPass (cycleAggregates ri stale now bk pv []).unhealthy = true ∧
    declaresSuccess k (List.replicate k true) = true := by
  refine ⟨rfl, rfl, rfl, rfl, rfl, ?_⟩
  simp [declaresSuccess, okStreakAfter, foldl_streak_replicate]

/-- C4 amended witness at the concrete defaults of the counterexample. -/
theorem C4_empty_targets_behavior_witness :
    (cycleAggregates true 300 1000 [] [] []).unhealthy = [] ∧
    (cycleAggregates true 300 1000 [] [] []).configured_met = false ∧
    (cycleAggregates true 300 1000 [] [] []).working_met = false ∧
    (cycleAggregates true 300 1000 [] [] []).finished_met = false ∧
    legacyPass (cycleAggregates true 300 1000 [] [] []).unhealthy = true ∧
    declaresSuccess 2 (List.replicate 2 true) = true :=
  C4_empty_targets_behavior true 300 1000 [] [] 2

/-- An agreement snapshot with unknown update code, a textual success
status, a fresh age, not busy — the C5 scenario. -/
def obsC5 : Obs :=
  { dn := "cn=agmt to c1,cn=replica,cn=suffix,cn=mapping tree,cn=config",
    enabled := some true, busy := none, update_start_epoch := none,
    update_code := none, update_age := some 10, init_code := some 0,
    update_status := some "Incremental update succeeded",
    init_status := none, replica_enabled := some true, status := "unknown" }

/-- C5 counterexample: `obsC5` carries the textual success signal
(line 387 computes `is_success = true` for it) and a fresh age
(0 ≤ 10 ≤ 300), yet the cycle computes `working_met = false`, because
line 388 (`recent_ok`) demands the numeric update code 0 and the
`is_success` variable is never read. -/
theorem C5_textual_success_not_working :
    isSuccessSignal obsC5.update_code obsC5.update_status = true ∧
    obsC5.update_age = some 10 ∧ (0 : Int) ≤ 10 ∧ (10 : Int) ≤ 300 ∧
    (cycleAggregates true 300 1000 [] [] [obsC5]).working_met = false := by
  refine ⟨by decide, rfl, by decide, by decide, by decide⟩

/-- C5 amended: the working aggregate honours only busy, forward progress,
and the numeric recent-success test (`update_code = 0` and fresh age); the
textual success signal is computed but not consulted, so an agreement that
is not busy, shows no progress trend, and lacks the numeric code 0 never
contributes to `working`, whatever its status text. -/
theorem C5_working_ignores_text (stale nowEpoch : Int) (o : Obs)
    (prevO : Option PrevEnt)
    (hc : o.update_code ≠ some 0) (hb : o.busy ≠ some true)
    (hm : movingB prevO o.update_start_epoch
        (endEpochOf nowEpoch o.update_age) o.update_age = false) :
    obsWorkingContrib stale nowEpoch prevO o = false ∧
    (cycleAggregates true stale nowEpoch [] [] [o]).working_met =
      obsWorkingContrib stale nowEpoch none o := by
  constructor
  · simp only [obsWorkingContrib, hm]
    simp [recentOk, hb, hc]
  · simp [cycleAggregates, cycleStepObs, prevLookup]

/-- C5 amended witness at the concrete snapshot of the counterexample. -/
theorem C5_working_ignores_text_witness :
    obsWorkingContrib 300 1000 none obsC5 = false ∧
    (cycleAggregates true 300 1000 [] [] [obsC5]).working_met =
      obsWorkingContrib 300 1000 none obsC5 :=
  C5_working_ignores_text 300 1000 obsC5 none (by decide) (by decide) (by decide)

/-- C6: the observer produces exactly one snapshot per requested DN, in
request order (and, being a total function, never raises); a failed
per-DN read yields the `missing` snapshot, whose agreement-level fields
are all `none` and whose status marker is `missing`, while a successful
read is parsed normally. -/
theorem C6_observer_batch (now : Int) (re : Option Bool)
    (fetches : List (String × Option Attrs)) :
    (observations now re fetches).length = fetches.length ∧
    (observations now re fetches).map Obs.dn = fetches.map Prod.fst ∧
    (∀ dn, observeOne now re (dn, none) = missingObs dn re) ∧
    (∀ dn e, observeOne now re (dn, some e) = parseObs now re dn e) ∧
    (∀ dn, (missingObs dn re).dn = dn ∧ (missingObs dn re).enabled = none ∧
      (missingObs dn re).busy = none ∧
      (missingObs dn re).update_start_epoch = none ∧
      (missingObs dn re).update_code = none ∧
      (missingObs dn re).update_age = none ∧
      (missingObs dn re).init_code = none ∧
      (missingObs dn re).update_status = none ∧
      (missingObs dn re).init_status = none ∧
      (missingObs dn re).status = "missing") := by
  have hdn : ∀ p : String × Option Attrs, (observeOne now re p).dn = p.1 := by
    rintro ⟨dn, _ | e⟩ <;> rfl
  refine ⟨by simp [observations], ?_, fun dn => rfl, fun dn e => rfl,
    fun dn => ⟨rfl, rfl, rfl, rfl, rfl, rfl, rfl, rfl, rfl, rfl⟩⟩
  induction fetches with
  | nil => rfl
  | cons p rest ih =>
    simp only [observations, List.map_cons] at ih ⊢
    rw [hdn p]
    exact congrArg _ ih

/-- Helper for C7: the first-integer search finds nothing in a string with
no digit at all. -/
theorem codeSearch_no_digits (cs : List Char) (h : ∀ c ∈ cs, ¬ c.isDigit = true) :
    codeSearch cs = none := by
  induction cs with
  | nil => rfl
  | cons c rest ih =>
    have hc : ¬ c.isDigit = true := h c (by simp)
    have hrest : ∀ x ∈ rest, ¬ x.isDigit = true := fun x hx => h x (by simp [hx])
    have hhead : ¬ (c == '-' && headIsDigit rest) = true := by
      cases rest with
      | nil => simp [headIsDigit]
      | cons d ds =>
        simp only [headIsDigit, Bool.and_eq_true]
        rintro ⟨-, hd⟩
        exact hrest d (by simp) hd
    simp only [codeSearch]
    rw [if_neg hc, if_neg hhead]
    exact ih hrest

/-- C7 counterexample: an entry read successfully but with no
`nsds5replicaLastUpdateEnd` attribute produces a snapshot whose
`update_age` is the sentinel number -1 (line 213), not the unknown value
`None` the claim requires. -/
theorem C7_age_sentinel :
    (parseObs 1000 none "cn=a,x"
      [("nsds5replicaLastUpdateStatus", ["Error code not available"])]).update_age
        = some (-1) ∧
    (parseObs 1000 none "cn=a,x"
      [("nsds5replicaLastUpdateStatus", ["Error code not available"])]).update_age
        ≠ none := by
  decide

/-- C7 amended: for a successfully read entry, an absent attribute yields
`none` for `enabled` and `busy`, an absent status or a status with no
parseable integer yields `none` for the update code (never zero), and a
string with no digit never parses to a code — but an absent or unparsable
last-update-end timestamp yields the sentinel `-1` for `update_age`
rather than `none` (the cycle logic treats negative ages like unknown). -/
theorem C7_unknown_fields (now : Int) (re : Option Bool) (dn : String) (e : Attrs) :
    (aget e "nsds5ReplicaEnabled" = none → (parseObs now re dn e).enabled = none) ∧
    (firstVal (aget e "nsds5ReplicaUpdateInProgress") = none →
      (parseObs now re dn e).busy = none) ∧
    (firstVal (aget e "nsds5replicaLastUpdateStatus") = none →
      (parseObs now re dn e).update_code = none) ∧
    (∀ s, firstVal (aget e "nsds5replicaLastUpdateStatus") = some s →
      codeSearch s.toList = none → (parseObs now re dn e).update_code = none) ∧
    (∀ s : String, (∀ c ∈ s.toList, ¬ c.isDigit = true) →
      codeSearch s.toList = none) ∧
    (firstVal (aget e "nsds5replicaLastUpdateEnd") = none →
      (parseObs now re dn e).update_age = some (-1)) ∧
    (∀ s, firstVal (aget e "nsds5replicaLastUpdateEnd") = some s →
      gtzToEpoch s = none → (parseObs now re dn e).update_age = some (-1)) := by
  refine ⟨?_, ?_, ?_, ?_, fun s hs => codeSearch_no_digits _ hs, ?_, ?_⟩
  · intro h
    simp only [parseObs]
    rw [h]
  · intro h
    simp only [parseObs]
    rw [h]
    rfl
  · intro h
    simp only [parseObs]
    rw [h]
    rfl
  · intro s hs hcs
    simp only [parseObs]
    rw [hs]
    simpa using hcs
  · intro h
    simp only [parseObs]
    rw [h]
    rfl
  · intro s hs hg
    simp only [parseObs]
    rw [hs]
    by_cases hse : s = ""
    · simp [hse]
    · simp [hse, hg]

/-- C7 amended witness at a concrete entry with an absent end timestamp
and a status without digits. -/
theorem C7_unknown_fields_witness :
    (parseObs 1000 none "cn=a,x"
      [("objectClass", ["nsDS5ReplicationAgreement"])]).enabled = none ∧
    (parseObs 1000 none "cn=a,x"
      [("objectClass", ["nsDS5ReplicationAgreement"])]).busy = none ∧
    (parseObs 1000 none "cn=a,x"
      [("objectClass", ["nsDS5ReplicationAgreement"])]).update_code = none ∧
    codeSearch "Error code not available".toList = none ∧
    (parseObs 1000 none "cn=a,x"
      [("objectClass", ["nsDS5ReplicationAgreement"])]).update_age = some (-1) := by
  have h := C7_unknown_fields 1000 none "cn=a,x"
    [("objectClass", ["nsDS5ReplicationAgreement"])]
  exact ⟨h.1 (by decide), h.2.1 (by decide), h.2.2.1 (by decide),
    h.2.2.2.2.1 "Error code not available" (by decide), h.2.2.2.2.2.1 (by decide)⟩

/-- C9 counterexample: when every sampling attempt fails after an earlier
successful sample had set the mapping, `backlog_by_name` keeps the stale
previous mapping rather than becoming empty. -/
theorem C9_failure_keeps_previous :
    monitorSample [("agmt1", 5)] [none, none] = [("agmt1", 5)] ∧
    monitorSample [("agmt1", 5)] [none, none] ≠ ([] : List (String × Int)) := by
  decide

/-- C9 amended: the sampler never raises (it is total: every subprocess or
parse failure is caught and the URL loop just continues) and a fully
failing invocation leaves the previous mapping unchanged — the mapping is
empty after failures only when it was already empty, i.e. when no sample
has yet succeeded. -/
theorem C9_failure_preserves_mapping (prev : List (String × Int))
    (attempts : List (Option (List (String × Int))))
    (h : ∀ a ∈ attempts, a = none) :
    monitorSample prev attempts = prev := by
  induction attempts with
  | nil => rfl
  | cons a rest ih =>
    have ha := h a (by simp)
    subst ha
    simp only [monitorSample]
    exact ih (fun x hx => h x (by simp [hx]))

/-- C9 amended witness: two failing attempts leave a previous non-empty
mapping in place. -/
theorem C9_failure_preserves_mapping_witness :
    monitorSample [("agmt1", 5)] [none, none] = [("agmt1", 5)] :=
  C9_failure_preserves_mapping [("agmt1", 5)] [none, none] (by decide)

end DirsrvRepl
